import Mathlib

set_option maxRecDepth 8000

/-!
Shallow embedding of the UltimaRobotics ur-openvpn-library session-management
layer (src/source-port/apis/openvpn_client_api.c and openvpn_server_api.c).
Pure functions of the C sources are translated to Lean functions; the
stateful registry operations become explicit state passing on registry
values.  Machine integers (uint32_t) are modelled as Nat with explicit
reduction modulo 2 ^ 32 where the C code can overflow.  External
collaborators (the tunnel engine, pthread primitives, time, rand, the cJSON
text decoder) are outside the embedding: thread spawn is modelled as always
succeeding, the worker loop is modelled as an explicit step function applied
a chosen number of iterations, and JSON input is modelled as an already
decoded tree (cJSON_Parse is the external input decoder per the design
documentation).
-/

namespace UrOpenvpn

/-- Constant MAX_CLIENT_SESSIONS from openvpn_client_api.h. -/
def MAX_CLIENT_SESSIONS : Nat := 64

/-- Constant MAX_EVENT_QUEUE_SIZE from openvpn_client_api.h. -/
def MAX_EVENT_QUEUE_SIZE : Nat := 256

/-- Constant MAX_SERVER_CLIENTS from openvpn_server_api.h. -/
def MAX_SERVER_CLIENTS : Nat := 1000

/-- Modulus of the uint32_t type used for session and client identifiers. -/
def UINT32_MOD : Nat := 2 ^ 32

/-- Error code OVPN_ERROR_SUCCESS from openvpn_client_api.h. -/
def OVPN_ERROR_SUCCESS : Int := 0

/-- Error code OVPN_ERROR_INVALID_PARAM from openvpn_client_api.h. -/
def OVPN_ERROR_INVALID_PARAM : Int := -1

/-- Error code OVPN_ERROR_SESSION_NOT_FOUND from openvpn_client_api.h. -/
def OVPN_ERROR_SESSION_NOT_FOUND : Int := -4

/-- Error code OVPN_ERROR_ALREADY_CONNECTED from openvpn_client_api.h. -/
def OVPN_ERROR_ALREADY_CONNECTED : Int := -5

/-- Error code OVPN_ERROR_NOT_CONNECTED from openvpn_client_api.h. -/
def OVPN_ERROR_NOT_CONNECTED : Int := -6

/-- Error code OVPN_ERROR_CONFIG_INVALID from openvpn_client_api.h. -/
def OVPN_ERROR_CONFIG_INVALID : Int := -7

/-- Error code OVPN_ERROR_THREAD_ERROR from openvpn_client_api.h. -/
def OVPN_ERROR_THREAD_ERROR : Int := -11

/-- Enum ovpn_client_state_t from openvpn_client_api.h. -/
inductive ClientState where
  | initial
  | connecting
  | wait
  | auth
  | getConfig
  | assignIp
  | addRoutes
  | connected
  | reconnecting
  | exiting
  | disconnected
  | error
  deriving DecidableEq, Repr

/-- Enum ovpn_client_event_type_t from openvpn_client_api.h. -/
inductive ClientEventType where
  | stateChange
  | logMessage
  | statsUpdate
  | errorEvent
  | authRequired
  | reconnect
  | latencyUpdate
  | qualityUpdate
  | bytesCount
  | routeUpdate
  deriving DecidableEq, Repr

/-- Struct ovpn_client_event_t.  The wall-clock timestamp and the opaque
payload buffer (both produced by external collaborators) are not modelled;
the fields the claims are about (originating session id, event kind,
state at emission, message text) are kept.  A NULL message is `none`. -/
structure Event where
  sessionId : Nat
  etype : ClientEventType
  state : ClientState
  message : Option String
  deriving DecidableEq, Repr

/-- Per-session event channel: the event_queue, event_queue_head and
event_queue_tail fields of ovpn_client_session_t.  The buffer is a list of
length MAX_EVENT_QUEUE_SIZE whose cells are `none` until first written. -/
structure EventQueue where
  buf : List (Option Event)
  head : Nat
  tail : Nat
  deriving DecidableEq, Repr

/-- Event queue state of a freshly created session: indices zeroed,
no cell written yet. -/
def emptyEventQueue : EventQueue :=
  { buf := List.replicate MAX_EVENT_QUEUE_SIZE none, head := 0, tail := 0 }

/-- Read of event_queue[i] in the C code. -/
def bufGet (buf : List (Option Event)) (i : Nat) : Option Event :=
  (buf[i]?).getD none

/-- Enqueue step of client_event_handler (openvpn_client_api.c lines
754-781): compute next_tail, drop the oldest event by advancing head when
the queue is full, write the event at tail, then advance tail. -/
def enqueueEvent (q : EventQueue) (e : Event) : EventQueue :=
  let next_tail := (q.tail + 1) % MAX_EVENT_QUEUE_SIZE
  let head2 := if next_tail = q.head then (q.head + 1) % MAX_EVENT_QUEUE_SIZE else q.head
  { buf := q.buf.set q.tail (some e), head := head2, tail := next_tail }

/-- Dequeue step of ovpn_client_get_next_event (openvpn_client_api.c lines
576-589): empty when head = tail, otherwise copy the event at head and
advance head. -/
def dequeueEvent (q : EventQueue) : Option Event × EventQueue :=
  if q.head = q.tail then (none, q)
  else (bufGet q.buf q.head, { q with head := (q.head + 1) % MAX_EVENT_QUEUE_SIZE })

/-- Number of pending events, `(tail - head) mod capacity` in uint32
arithmetic given that both indices are kept below the capacity. -/
def pendingCount (q : EventQueue) : Nat :=
  (q.tail + MAX_EVENT_QUEUE_SIZE - q.head) % MAX_EVENT_QUEUE_SIZE

/-- Struct ovpn_client_config_t.  NULL-able char pointer fields are
`Option String`; numeric fields are uint32, kept as Nat. -/
structure ClientConfig where
  profile_name : Option String := none
  ovpn_config : Option String := none
  username : Option String := none
  password : Option String := none
  cert_path : Option String := none
  key_path : Option String := none
  ca_path : Option String := none
  auto_reconnect : Bool := false
  reconnect_interval : Nat := 0
  ping_interval : Nat := 0
  enable_compression : Bool := false
  mtu_size : Nat := 0
  proxy_host : Option String := none
  proxy_port : Nat := 0
  proxy_username : Option String := none
  proxy_password : Option String := none
  log_verbose : Bool := false
  stats_interval : Nat := 0
  deriving DecidableEq, Repr

/-- Zero-initialized ovpn_client_config_t (memset in the C code). -/
def zeroClientConfig : ClientConfig := {}

/-- Struct ovpn_client_session_t.  The pthread handle is modelled by the
Bool `workerThread` (nonzero or zero); timestamps, the statistics and
quality snapshots (refreshed from rand()/time(), explicitly documented as
placeholder data) and the push callback (an external effect) are not part
of the state the claims are about.  The is_active flag is modelled by the
slot in the registry holding `some` session. -/
structure Session where
  sessionId : Nat
  config : ClientConfig
  state : ClientState
  threadRunning : Bool
  workerThread : Bool
  isConnected : Bool
  queue : EventQueue
  deriving DecidableEq, Repr

/-- Function client_event_handler (openvpn_client_api.c lines 745-787)
restricted to its effect on the session: build the event from the current
session fields and enqueue it.  The user push callback that follows is an
external effect. -/
def client_event_handler (s : Session) (t : ClientEventType) (msg : Option String) : Session :=
  let e : Event := { sessionId := s.sessionId, etype := t, state := s.state, message := msg }
  { s with queue := enqueueEvent s.queue e }

/-- Check whether `pre` is a prefix of `l`, helper for the strstr model. -/
def strPrefixAt : List Char → List Char → Bool
  | [], _ => true
  | _ :: _, [] => false
  | c :: cs, d :: ds => c = d && strPrefixAt cs ds

/-- Model of strstr(hay, needle) != NULL: the needle occurs somewhere in
the haystack. -/
def hasSub : List Char → List Char → Bool
  | hay, needle =>
    if strPrefixAt needle hay then true
    else match hay with
      | [] => false
      | _ :: t => hasSub t needle

/-- Function parse_ovpn_config (openvpn_client_api.c lines 875-894):
requires a non-NULL, non-empty profile text containing the substring
"client". -/
def parse_ovpn_config (s : Session) : Int :=
  match s.config.ovpn_config with
  | none => OVPN_ERROR_CONFIG_INVALID
  | some t =>
    if t.length = 0 then OVPN_ERROR_CONFIG_INVALID
    else if hasSub t.toList "client".toList then OVPN_ERROR_SUCCESS
    else OVPN_ERROR_CONFIG_INVALID

/-- Global client session registry: the g_sessions array (a slot is unused
when it holds `none`) together with the g_next_session_id counter. -/
structure ClientRegistry where
  slots : List (Option Session)
  nextId : Nat
  deriving DecidableEq, Repr

/-- Registry state right after ovpn_client_api_init: all 64 slots unused,
next session identifier 1. -/
def initClientRegistry : ClientRegistry :=
  { slots := List.replicate MAX_CLIENT_SESSIONS none, nextId := 1 }

/-- First free slot scan of ovpn_client_create_session. -/
def findFreeSlot : List (Option Session) → Option Nat
  | [] => none
  | none :: _ => some 0
  | some _ :: rest => (findFreeSlot rest).map (· + 1)

/-- Lookup scan shared by connect, disconnect, get_state and the other
operations: first active slot whose session_id matches. -/
def findSession : List (Option Session) → Nat → Option (Nat × Session)
  | [], _ => none
  | none :: rest, id => (findSession rest id).map (fun p => (p.1 + 1, p.2))
  | some s :: rest, id =>
    if s.sessionId = id then some (0, s)
    else (findSession rest id).map (fun p => (p.1 + 1, p.2))

/-- Store an updated session back into its slot. -/
def updateSlot (r : ClientRegistry) (i : Nat) (s : Session) : ClientRegistry :=
  { r with slots := r.slots.set i (some s) }

/-- Function ovpn_client_create_session (openvpn_client_api.c lines
221-304).  Returns 0 without touching the registry when the configuration
is NULL-equivalent (missing ovpn_config) or no slot is free; otherwise
deep-copies the configuration into the first free slot, assigns the next
identifier from the monotonically increasing uint32 counter, sets state
Initial, and fires a synchronous StateChange event before returning. -/
def ovpn_client_create_session (r : ClientRegistry) (c : ClientConfig) :
    Nat × ClientRegistry :=
  match c.ovpn_config with
  | none => (0, r)
  | some _ =>
    match findFreeSlot r.slots with
    | none => (0, r)
    | some i =>
      let sess0 : Session :=
        { sessionId := r.nextId, config := c, state := ClientState.initial,
          threadRunning := false, workerThread := false, isConnected := false,
          queue := emptyEventQueue }
      let sess := client_event_handler sess0 ClientEventType.stateChange (some "Session created")
      (r.nextId, { slots := r.slots.set i (some sess), nextId := (r.nextId + 1) % UINT32_MOD })

/-- Function ovpn_client_connect (openvpn_client_api.c lines 306-352).
Validates the stored profile, spawns the worker (pthread_create is an
external primitive, modelled as succeeding), sets state Connecting and
fires a StateChange event. -/
def ovpn_client_connect (r : ClientRegistry) (id : Nat) : Int × ClientRegistry :=
  match findSession r.slots id with
  | none => (OVPN_ERROR_SESSION_NOT_FOUND, r)
  | some (i, s) =>
    if s.isConnected || s.threadRunning then (OVPN_ERROR_ALREADY_CONNECTED, r)
    else
      let ret := parse_ovpn_config s
      if ret ≠ OVPN_ERROR_SUCCESS then (ret, r)
      else
        let s1 := { s with threadRunning := true, workerThread := true,
                           state := ClientState.connecting }
        let s2 := client_event_handler s1 ClientEventType.stateChange (some "Connection initiated")
        (OVPN_ERROR_SUCCESS, updateSlot r i s2)

/-- Function ovpn_client_disconnect (openvpn_client_api.c lines 354-395).
The third component of the result records whether a pthread_join was
performed (the join happens only when a nonzero worker-thread handle is
present, after the not-connected early return).  The cooperative shutdown
of the worker is subsumed by the subsequent forced state update: both set
state Disconnected and clear the connected flag. -/
def ovpn_client_disconnect (r : ClientRegistry) (id : Nat) :
    Int × ClientRegistry × Bool :=
  match findSession r.slots id with
  | none => (OVPN_ERROR_SESSION_NOT_FOUND, r, false)
  | some (i, s) =>
    if !s.threadRunning && !s.isConnected then (OVPN_ERROR_NOT_CONNECTED, r, false)
    else
      let joined := s.workerThread
      let s1 := { s with threadRunning := false, workerThread := false,
                         state := ClientState.disconnected, isConnected := false }
      let s2 := client_event_handler s1 ClientEventType.stateChange (some "Disconnected")
      (OVPN_ERROR_SUCCESS, updateSlot r i s2, joined)

/-- Function ovpn_client_destroy_session (openvpn_client_api.c lines
397-430): disconnect first (result ignored), then release the slot. -/
def ovpn_client_destroy_session (r : ClientRegistry) (id : Nat) :
    Int × ClientRegistry :=
  let r1 := (ovpn_client_disconnect r id).2.1
  match findSession r1.slots id with
  | none => (OVPN_ERROR_SESSION_NOT_FOUND, r1)
  | some (i, _) => (OVPN_ERROR_SUCCESS, { r1 with slots := r1.slots.set i none })

/-- Function ovpn_client_get_state (openvpn_client_api.c lines 432-448):
snapshot of the session state, CLIENT_STATE_ERROR for an unknown id. -/
def ovpn_client_get_state (r : ClientRegistry) (id : Nat) : ClientState :=
  match findSession r.slots id with
  | none => ClientState.error
  | some (_, s) => s.state

/-- Function ovpn_client_get_next_event (openvpn_client_api.c lines
554-590): non-blocking dequeue from the per-session event channel. -/
def ovpn_client_get_next_event (r : ClientRegistry) (id : Nat) :
    Option Event × ClientRegistry :=
  match findSession r.slots id with
  | none => (none, r)
  | some (i, s) =>
    let (e, q) := dequeueEvent s.queue
    (e, updateSlot r i { s with queue := q })

/-- Function ovpn_client_pause (openvpn_client_api.c lines 932-934): a
direct tail call to ovpn_client_disconnect. -/
def ovpn_client_pause (r : ClientRegistry) (id : Nat) : Int × ClientRegistry × Bool :=
  ovpn_client_disconnect r id

/-- Function ovpn_client_resume (openvpn_client_api.c lines 936-938): a
direct tail call to ovpn_client_connect. -/
def ovpn_client_resume (r : ClientRegistry) (id : Nat) : Int × ClientRegistry :=
  ovpn_client_connect r id

/-- One iteration of the client_worker_thread loop body
(openvpn_client_api.c lines 657-734): read the current state, run the
transition for that state (each forward transition fires exactly one
StateChange event), then the auto-reconnect check.  In state Connected the
loop refreshes statistics and quality from rand()/time() and runs a
time-gated latency probe; these touch only the placeholder metric
snapshots (design notes: simulated data, not a contract) and are outside
the modelled state, so that branch leaves the modelled session unchanged.
The 100 ms sleep and the reconnect-interval sleep are external. -/
def workerStep (s : Session) : Session :=
  let current := s.state
  let s1 :=
    match current with
    | ClientState.connecting =>
      client_event_handler { s with state := ClientState.auth }
        ClientEventType.stateChange (some "Authenticating")
    | ClientState.auth =>
      client_event_handler { s with state := ClientState.getConfig }
        ClientEventType.stateChange (some "Getting configuration")
    | ClientState.getConfig =>
      client_event_handler { s with state := ClientState.assignIp }
        ClientEventType.stateChange (some "Assigning IP")
    | ClientState.assignIp =>
      client_event_handler { s with state := ClientState.addRoutes }
        ClientEventType.stateChange (some "Adding routes")
    | ClientState.addRoutes =>
      client_event_handler { s with state := ClientState.connected, isConnected := true }
        ClientEventType.stateChange (some "Connected")
    | _ => s
  if s1.isConnected = false ∧ s1.config.auto_reconnect = true ∧
      current = ClientState.disconnected then
    if s1.threadRunning then
      client_event_handler { s1 with state := ClientState.connecting }
        ClientEventType.reconnect (some "Auto-reconnecting")
    else s1
  else s1

/-- Run up to `n` iterations of the worker loop; the keep-running flag is
checked before each iteration as in the C while condition. -/
def workerIterate : Nat → Session → Session
  | 0, s => s
  | n + 1, s => if s.threadRunning then workerIterate n (workerStep s) else s

/-- Apply `n` worker iterations to the session registered under `id`. -/
def runWorkerAt (r : ClientRegistry) (id : Nat) (n : Nat) : ClientRegistry :=
  match findSession r.slots id with
  | none => r
  | some (i, s) => updateSlot r i (workerIterate n s)

/-- Drain at most `n` events through ovpn_client_get_next_event, stopping
at the first empty poll; returns the events in delivery order. -/
def drainEvents : ClientRegistry → Nat → Nat → List Event
  | _, _, 0 => []
  | r, id, n + 1 =>
    match ovpn_client_get_next_event r id with
    | (none, _) => []
    | (some e, r2) => e :: drainEvents r2 id n

/-- Byte swap of a 32-bit value; both htonl and ntohl perform this swap on
a little-endian host (the two are mutually inverse on every host, which is
all the code relies on: it stores s_addr with htonl and always reads it
back through ntohl). -/
def bswap32 (x : Nat) : Nat :=
  ((x % 256) <<< 24) + (((x >>> 8) % 256) <<< 16) + (((x >>> 16) % 256) <<< 8) + ((x >>> 24) % 256)

/-- Truncating strncpy into a zeroed buffer that keeps at most n
characters. -/
def strTake (s : String) (n : Nat) : String :=
  String.mk (s.toList.take n)

/-- Split a character list at every occurrence of the separator. -/
def splitOnChar (sep : Char) : List Char → List (List Char)
  | [] => [[]]
  | c :: rest =>
    if c = sep then [] :: splitOnChar sep rest
    else
      match splitOnChar sep rest with
      | [] => [[c]]
      | h :: t => (c :: h) :: t

/-- Value of a run of decimal digit characters, most significant first. -/
def digitsVal : List Char → Nat → Nat
  | [], acc => acc
  | c :: rest, acc => digitsVal rest (acc * 10 + (c.toNat - 48))

/-- Parse one dotted-quad octet: a nonempty run of digits valued at most
255. -/
def parseOctet (l : List Char) : Option Nat :=
  if l = [] then none
  else if l.all Char.isDigit then
    if digitsVal l 0 ≤ 255 then some (digitsVal l 0) else none
  else none

/-- Model of ntohl applied to the result of inet_addr on a dotted-quad
text: the host-order 32-bit address, or 0xFFFFFFFF (the ntohl image of
INADDR_NONE) when the text is not a valid dotted quad. -/
def ipv4_host (l : List Char) : Nat :=
  match splitOnChar ('.') l with
  | [a, b, c, d] =>
    match parseOctet a, parseOctet b, parseOctet c, parseOctet d with
    | some va, some vb, some vc, some vd =>
      (va <<< 24) + (vb <<< 16) + (vc <<< 8) + vd
    | _, _, _, _ => (2 ^ 32) - 1
  | _ => (2 ^ 32) - 1

/-- Model of atoi restricted to its use on the prefix-length text: parse
the leading run of digits, 0 when there is none. -/
def atoiNat (l : List Char) : Nat :=
  digitsVal (l.takeWhile Char.isDigit) 0

/-- Struct ovpn_client_info_t restricted to the fields the registry
operations under study read or write (identifier, common name, contact
strings, static-address assignment, activity and revocation flags,
connection flag).  Certificate data, route lists, timestamps and traffic
counters are carried by external collaborators or are not touched by the
claims.  The static_ip field holds s_addr, that is the network-byte-order
value produced by htonl. -/
structure ServerClientInfo where
  client_id : Nat
  common_name : String
  email : String := ""
  description : String := ""
  static_ip : Nat := 0
  has_static_ip : Bool := false
  is_active : Bool := false
  is_revoked : Bool := false
  revocation_reason : String := ""
  currently_connected : Bool := false
  deriving DecidableEq, Repr

/-- Server configuration restricted to the field the client-registry
operations under study consume: the subnet text used by the static-address
allocator.  The remaining configuration fields feed the external tunnel
engine and the profile generator. -/
structure ServerConfig where
  server_subnet : String
  deriving DecidableEq, Repr

/-- Struct ovpn_server_context_t restricted to the client registry: the
clients array (modelled as the list of its first client_count entries),
the next_client_id counter and the configuration. -/
structure ServerContext where
  config : ServerConfig
  clients : List ServerClientInfo
  next_client_id : Nat
  deriving DecidableEq, Repr

/-- Function ovpn_server_init (openvpn_server_api.c lines 54-87) restricted
to the modelled fields: default subnet 10.8.0.0/24, empty client table,
counter starting at 1. -/
def ovpn_server_init : ServerContext :=
  { config := { server_subnet := "10.8.0.0/24" }, clients := [], next_client_id := 1 }

/-- Function allocate_static_ip (openvpn_server_api.c lines 417-450):
copy the subnet text (31-char strncpy bound), split at the first slash
(0 when there is none), take the host-order network base and the prefix
length, then scan host offsets from 10 up to (1 << (32 - prefix)) - 2 for
the first address no client already holds; 0 when the scan is exhausted. -/
def allocate_static_ip (ctx : ServerContext) : Nat :=
  let subnet := ctx.config.server_subnet.toList.take 31
  match splitOnChar ('/') subnet with
  | [] => 0
  | [_] => 0
  | base :: p :: _ =>
    let network := ipv4_host base
    let prefix2 := atoiNat p
    let bound := (1 <<< (32 - prefix2)) - 1
    let candidates := List.range' 10 (bound - 10)
    let inUse := fun (i : Nat) =>
      ctx.clients.any (fun cl => cl.has_static_ip && bswap32 cl.static_ip = network + i)
    match candidates.find? (fun i => !inUse i) with
    | some i => network + i
    | none => 0

/-- Function ovpn_server_create_client (openvpn_server_api.c lines
354-415).  Returns the zero identifier without touching the table when the
common name is NULL, the table is full, or an active (non-revoked) record
with the same common name exists; otherwise appends the record, assigning
the next free static address when one is available (when the allocator
returns 0 the record is simply created without a static address).  The
certificate generation that follows is delegated to the external PKI
collaborator and touches no registry state. -/
def ovpn_server_create_client (ctx : ServerContext) (common_name : Option String)
    (email description : Option String) : Nat × ServerContext :=
  match common_name with
  | none => (0, ctx)
  | some cn =>
    if ctx.clients.length ≥ MAX_SERVER_CLIENTS then (0, ctx)
    else if ctx.clients.any (fun cl => cl.common_name = cn && !cl.is_revoked) then (0, ctx)
    else
      let client : ServerClientInfo :=
        { client_id := ctx.next_client_id, common_name := strTake cn 255,
          email := strTake (email.getD "") 255,
          description := strTake (description.getD "") 511,
          is_active := true }
      let ip := allocate_static_ip ctx
      let client2 := if ip ≠ 0 then
          { client with static_ip := bswap32 ip, has_static_ip := true }
        else client
      (ctx.next_client_id,
       { ctx with clients := ctx.clients ++ [client2],
                  next_client_id := (ctx.next_client_id + 1) % UINT32_MOD })

/-- Index of the first client record with the given identifier. -/
def findClientIdx : List ServerClientInfo → Nat → Option Nat
  | [], _ => none
  | cl :: rest, id =>
    if cl.client_id = id then some 0
    else (findClientIdx rest id).map (· + 1)

/-- Function ovpn_server_revoke_client (openvpn_server_api.c lines
597-637): terminally mark the record revoked and inactive, recording the
reason; -1 for the zero identifier or an unknown identifier.  The
disconnect of a live session and the emitted event go to external
collaborators and touch no registry state. -/
def ovpn_server_revoke_client (ctx : ServerContext) (client_id : Nat)
    (reason : Option String) : Int × ServerContext :=
  if client_id = 0 then (-1, ctx)
  else
    match findClientIdx ctx.clients client_id with
    | none => (-1, ctx)
    | some i =>
      match ctx.clients.get? i with
      | none => (-1, ctx)
      | some cl =>
        let cl2 := { cl with is_revoked := true, is_active := false,
                             revocation_reason :=
                               match reason with
                               | some rr => strTake rr 255
                               | none => cl.revocation_reason }
        (0, { ctx with clients := ctx.clients.set i cl2 })

/-- Drain at most `n` events from an event channel, stopping when empty. -/
def drainN : Nat → EventQueue → List Event
  | 0, _ => []
  | n + 1, q =>
    match dequeueEvent q with
    | (some e, q2) => e :: drainN n q2
    | (none, _) => []

/-- Enqueue a list of events in order (repeated client_event_handler
enqueue steps on one channel). -/
def enqueueList (q : EventQueue) (es : List Event) : EventQueue :=
  es.foldl enqueueEvent q

/-- Suffix of the last `n` elements of a list (all of it when shorter). -/
def lastN (n : Nat) (l : List α) : List α := l.drop (l.length - n)

/-- Abstract effect of one enqueue on the list of pending events: append,
dropping the oldest pending event first when the channel already holds
MAX_EVENT_QUEUE_SIZE - 1 events. -/
def absEnq (L : List Event) (e : Event) : List Event :=
  if L.length = 255 then L.drop 1 ++ [e] else L ++ [e]

/-- Representation invariant tying an event channel to its list of pending
events, oldest first: the indices are in range, the pending count matches,
and cell (head + i) mod capacity holds the i-th pending event. -/
def queueInv (q : EventQueue) (L : List Event) : Prop :=
  q.buf.length = 256 ∧ q.head < 256 ∧ q.tail < 256 ∧
  pendingCount q = L.length ∧ L.length ≤ 255 ∧
  ∀ i, i < L.length → bufGet q.buf ((q.head + i) % 256) = L[i]?

/-- Test fixture: a minimal distinct event. -/
def mkTestEvent (i : Nat) : Event :=
  { sessionId := i, etype := ClientEventType.stateChange,
    state := ClientState.initial, message := none }

/-- Test fixture: 257 distinct events, one more than the channel storage
size. -/
def testEvents257 : List Event := (List.range 257).map mkTestEvent

/-- Test fixture: a valid client configuration holding the mandatory
client-mode profile text. -/
def witnessClientConfig : ClientConfig :=
  { ovpn_config := some "client\ndev tun" }

/-- Host-order address 10.8.0.0, the network base of the default server
subnet. -/
def ipBase : Nat := (10 <<< 24) + (8 <<< 16)

/-- Test fixture: 245 client records jointly holding every host address
10.8.0.10 .. 10.8.0.254 of the default subnet. -/
def bulkClients : List ServerClientInfo :=
  (List.range' 10 245).map (fun i =>
    { client_id := i, common_name := "bulk", static_ip := bswap32 (ipBase + i),
      has_static_ip := true, is_active := true })

/-- Test fixture: a server context whose subnet host range is exhausted. -/
def exhaustedServerCtx : ServerContext :=
  { config := { server_subnet := "10.8.0.0/24" }, clients := bulkClients,
    next_client_id := 300 }

/-- Test fixture: an arbitrary provisioned client record. -/
def dummyServerClient : ServerClientInfo :=
  { client_id := 1, common_name := "bulk", is_active := true }

/-- Test fixture: a server registry filled to MAX_SERVER_CLIENTS records. -/
def fullServerCtx : ServerContext :=
  { config := { server_subnet := "10.8.0.0/24" },
    clients := List.replicate MAX_SERVER_CLIENTS dummyServerClient,
    next_client_id := 1001 }

/-- Scenario event 1 of the connect trace. -/
def c1E1 : Event :=
  { sessionId := 1, etype := ClientEventType.stateChange,
    state := ClientState.initial, message := some "Session created" }

/-- Scenario event 2 of the connect trace. -/
def c1E2 : Event :=
  { sessionId := 1, etype := ClientEventType.stateChange,
    state := ClientState.connecting, message := some "Connection initiated" }

/-- Scenario event 3 of the connect trace. -/
def c1E3 : Event :=
  { sessionId := 1, etype := ClientEventType.stateChange,
    state := ClientState.auth, message := some "Authenticating" }

/-- Scenario event 4 of the connect trace. -/
def c1E4 : Event :=
  { sessionId := 1, etype := ClientEventType.stateChange,
    state := ClientState.getConfig, message := some "Getting configuration" }

/-- Scenario event 5 of the connect trace. -/
def c1E5 : Event :=
  { sessionId := 1, etype := ClientEventType.stateChange,
    state := ClientState.assignIp, message := some "Assigning IP" }

/-- Scenario event 6 of the connect trace. -/
def c1E6 : Event :=
  { sessionId := 1, etype := ClientEventType.stateChange,
    state := ClientState.addRoutes, message := some "Adding routes" }

/-- Scenario event 7 of the connect trace. -/
def c1E7 : Event :=
  { sessionId := 1, etype := ClientEventType.stateChange,
    state := ClientState.connected, message := some "Connected" }

/-- Scenario event channel after one enqueue. -/
def c1Q1 : EventQueue := enqueueEvent emptyEventQueue c1E1

/-- Scenario event channel after 2 enqueues. -/
def c1Q2 : EventQueue := enqueueEvent c1Q1 c1E2

/-- Scenario event channel after 3 enqueues. -/
def c1Q3 : EventQueue := enqueueEvent c1Q2 c1E3

/-- Scenario event channel after 4 enqueues. -/
def c1Q4 : EventQueue := enqueueEvent c1Q3 c1E4

/-- Scenario event channel after 5 enqueues. -/
def c1Q5 : EventQueue := enqueueEvent c1Q4 c1E5

/-- Scenario event channel after 6 enqueues. -/
def c1Q6 : EventQueue := enqueueEvent c1Q5 c1E6

/-- Scenario event channel after 7 enqueues. -/
def c1Q7 : EventQueue := enqueueEvent c1Q6 c1E7

/-- Scenario session right after creation. -/
def c1S0 (c : ClientConfig) : Session :=
  { sessionId := 1, config := c, state := ClientState.initial,
    threadRunning := false, workerThread := false, isConnected := false, queue := c1Q1 }

/-- Scenario session right after Connect returned. -/
def c1S1 (c : ClientConfig) : Session :=
  { sessionId := 1, config := c, state := ClientState.connecting,
    threadRunning := true, workerThread := true, isConnected := false, queue := c1Q2 }

/-- Scenario session after worker iteration 1. -/
def c1S2 (c : ClientConfig) : Session :=
  { sessionId := 1, config := c, state := ClientState.auth,
    threadRunning := true, workerThread := true, isConnected := false, queue := c1Q3 }

/-- Scenario session after worker iteration 2. -/
def c1S3 (c : ClientConfig) : Session :=
  { sessionId := 1, config := c, state := ClientState.getConfig,
    threadRunning := true, workerThread := true, isConnected := false, queue := c1Q4 }

/-- Scenario session after worker iteration 3. -/
def c1S4 (c : ClientConfig) : Session :=
  { sessionId := 1, config := c, state := ClientState.assignIp,
    threadRunning := true, workerThread := true, isConnected := false, queue := c1Q5 }

/-- Scenario session after worker iteration 4. -/
def c1S5 (c : ClientConfig) : Session :=
  { sessionId := 1, config := c, state := ClientState.addRoutes,
    threadRunning := true, workerThread := true, isConnected := false, queue := c1Q6 }

/-- Scenario session after worker iteration 5. -/
def c1S6 (c : ClientConfig) : Session :=
  { sessionId := 1, config := c, state := ClientState.connected,
    threadRunning := true, workerThread := true, isConnected := true, queue := c1Q7 }

/-- Scenario registry right after creation. -/
def c1Rc (c : ClientConfig) : ClientRegistry :=
  { slots := some (c1S0 c) :: List.replicate 63 none, nextId := 2 }

/-- Scenario registry right after Connect returned. -/
def c1R2 (c : ClientConfig) : ClientRegistry :=
  { slots := some (c1S1 c) :: List.replicate 63 none, nextId := 2 }

/-- Expected event trace of the connect scenario: the creation event
followed by exactly one StateChange per forward transition, in order. -/
def c1Events : List Event := [c1E1, c1E2, c1E3, c1E4, c1E5, c1E6, c1E7]

/-- Reading a cell just written. -/
theorem bufGet_set_self {buf : List (Option Event)} {i : Nat} (h : i < buf.length)
    (a : Option Event) : bufGet (buf.set i a) i = a := by
  simp [bufGet, List.getElem?_set_self h]

/-- Reading a cell other than the one written. -/
theorem bufGet_set_ne {buf : List (Option Event)} {i j : Nat} (h : i ≠ j)
    (a : Option Event) : bufGet (buf.set i a) j = bufGet buf j := by
  simp [bufGet, List.getElem?_set_ne h]

/-- The freshly initialized channel holds no pending events. -/
theorem queueInv_empty : queueInv emptyEventQueue [] := by
  refine ⟨?_, ?_, ?_, ?_, ?_, ?_⟩
  · show (List.replicate MAX_EVENT_QUEUE_SIZE (none : Option Event)).length = 256
    rw [List.length_replicate]
    rfl
  · show 0 < 256
    omega
  · show 0 < 256
    omega
  · show (0 + MAX_EVENT_QUEUE_SIZE - 0) % MAX_EVENT_QUEUE_SIZE = 0
    rfl
  · show 0 ≤ 255
    omega
  · intro i hi
    simp at hi

/-- One enqueue step refines the abstract append-dropping-oldest step. -/
theorem queueInv_enqueue {q : EventQueue} {L : List Event} (h : queueInv q L) (e : Event) :
    queueInv (enqueueEvent q e) (absEnq L e) := by
  obtain ⟨hlen, hh, ht, hp, hle, hslot⟩ := h
  have hp2 : (q.tail + 256 - q.head) % 256 = L.length := by
    simpa [pendingCount, MAX_EVENT_QUEUE_SIZE] using hp
  have htail : q.tail = (q.head + L.length) % 256 := by omega
  by_cases hfull : L.length = 255
  · have hnt : (q.tail + 1) % MAX_EVENT_QUEUE_SIZE = q.head := by
      show (q.tail + 1) % 256 = q.head
      omega
    have henq : enqueueEvent q e =
        ⟨q.buf.set q.tail (some e), (q.head + 1) % 256, (q.tail + 1) % 256⟩ := by
      simp only [enqueueEvent]
      rw [if_pos hnt]
      rfl
    have habs : absEnq L e = L.drop 1 ++ [e] := by simp [absEnq, hfull]
    rw [habs, henq]
    have hlen2 : (L.drop 1 ++ [e]).length = 255 := by
      simp [List.length_drop, hfull]
    refine ⟨?_, ?_, ?_, ?_, ?_, ?_⟩
    · show (q.buf.set q.tail (some e)).length = 256
      simpa using hlen
    · show (q.head + 1) % 256 < 256
      omega
    · show (q.tail + 1) % 256 < 256
      omega
    · show ((q.tail + 1) % 256 + MAX_EVENT_QUEUE_SIZE - (q.head + 1) % 256) %
          MAX_EVENT_QUEUE_SIZE = (L.drop 1 ++ [e]).length
      rw [hlen2]
      show ((q.tail + 1) % 256 + 256 - (q.head + 1) % 256) % 256 = 255
      omega
    · rw [hlen2]
    · intro i hi
      rw [hlen2] at hi
      show bufGet (q.buf.set q.tail (some e)) (((q.head + 1) % 256 + i) % 256) = _
      by_cases hlast : i = 254
      · subst hlast
        have hidx : ((q.head + 1) % 256 + 254) % 256 = q.tail := by omega
        rw [hidx, bufGet_set_self (by omega) (some e)]
        have hdl : (L.drop 1).length = 254 := by simp [hfull]
        rw [List.getElem?_append_right (by omega)]
        simp [hdl, hfull]
      · have hidx : ((q.head + 1) % 256 + i) % 256 = (q.head + (1 + i)) % 256 := by omega
        have hne : q.tail ≠ (q.head + (1 + i)) % 256 := by omega
        rw [hidx, bufGet_set_ne hne (some e), hslot (1 + i) (by omega)]
        have hdl : (L.drop 1).length = 254 := by simp [hfull]
        rw [List.getElem?_append_left (by omega), List.getElem?_drop]
  · have hnt : ¬ (q.tail + 1) % MAX_EVENT_QUEUE_SIZE = q.head := by
      show ¬ (q.tail + 1) % 256 = q.head
      omega
    have henq : enqueueEvent q e =
        ⟨q.buf.set q.tail (some e), q.head, (q.tail + 1) % 256⟩ := by
      simp only [enqueueEvent]
      rw [if_neg hnt]
      rfl
    have habs : absEnq L e = L ++ [e] := by simp [absEnq, hfull]
    rw [habs, henq]
    refine ⟨?_, ?_, ?_, ?_, ?_, ?_⟩
    · show (q.buf.set q.tail (some e)).length = 256
      simpa using hlen
    · show q.head < 256
      omega
    · show (q.tail + 1) % 256 < 256
      omega
    · show ((q.tail + 1) % 256 + MAX_EVENT_QUEUE_SIZE - q.head) % MAX_EVENT_QUEUE_SIZE =
          (L ++ [e]).length
      simp only [List.length_append, List.length_singleton]
      show ((q.tail + 1) % 256 + 256 - q.head) % 256 = L.length + 1
      omega
    · simp only [List.length_append, List.length_singleton]
      omega
    · intro i hi
      simp only [List.length_append, List.length_singleton] at hi
      show bufGet (q.buf.set q.tail (some e)) ((q.head + i) % 256) = _
      by_cases hlast : i = L.length
      · subst hlast
        have hidx : (q.head + L.length) % 256 = q.tail := htail.symm
        rw [hidx, bufGet_set_self (by omega) (some e)]
        rw [List.getElem?_append_right (by omega)]
        simp
      · have hne : q.tail ≠ (q.head + i) % 256 := by omega
        rw [bufGet_set_ne hne (some e), hslot i (by omega)]
        rw [List.getElem?_append_left (by omega)]


/-- Dequeue from a non-empty channel returns the oldest pending event. -/
theorem queueInv_dequeue_cons {q : EventQueue} {e : Event} {L : List Event}
    (h : queueInv q (e :: L)) :
    dequeueEvent q = (some e, { q with head := (q.head + 1) % 256 }) ∧
    queueInv { q with head := (q.head + 1) % 256 } L := by
  obtain ⟨hlen, hh, ht, hp, hle, hslot⟩ := h
  have hp2 : (q.tail + 256 - q.head) % 256 = L.length + 1 := by
    simpa [pendingCount, MAX_EVENT_QUEUE_SIZE] using hp
  have hne : ¬ q.head = q.tail := by omega
  have hfst : bufGet q.buf q.head = some e := by
    have h0 := hslot 0 (by simp)
    rw [Nat.add_zero, Nat.mod_eq_of_lt hh] at h0
    simpa using h0
  constructor
  · simp only [dequeueEvent, if_neg hne, hfst]
    rfl
  · refine ⟨hlen, by show (q.head + 1) % 256 < 256; omega, ht, ?_, by omega, ?_⟩
    · show (q.tail + MAX_EVENT_QUEUE_SIZE - (q.head + 1) % 256) % MAX_EVENT_QUEUE_SIZE = L.length
      show (q.tail + 256 - (q.head + 1) % 256) % 256 = L.length
      omega
    · intro i hi
      show bufGet q.buf (((q.head + 1) % 256 + i) % 256) = L[i]?
      have hidx : ((q.head + 1) % 256 + i) % 256 = (q.head + (i + 1)) % 256 := by omega
      rw [hidx, hslot (i + 1) (by simpa using Nat.succ_lt_succ hi)]
      simp

/-- Dequeue from an empty channel reports no event and leaves it as is. -/
theorem queueInv_dequeue_nil {q : EventQueue} (h : queueInv q []) :
    dequeueEvent q = (none, q) := by
  obtain ⟨hlen, hh, ht, hp, hle, hslot⟩ := h
  have hp2 : (q.tail + 256 - q.head) % 256 = 0 := by
    simpa [pendingCount, MAX_EVENT_QUEUE_SIZE] using hp
  have he : q.head = q.tail := by omega
  simp [dequeueEvent, he]

/-- Draining as many events as are pending returns them oldest first. -/
theorem drainN_inv {L : List Event} : ∀ {q : EventQueue}, queueInv q L →
    drainN L.length q = L := by
  induction L with
  | nil => intro q _; rfl
  | cons e L ih =>
    intro q h
    obtain ⟨hstep, hinv⟩ := queueInv_dequeue_cons h
    show drainN (L.length + 1) q = e :: L
    simp only [drainN, hstep]
    rw [ih hinv]

/-- Folding enqueues refines folding the abstract step. -/
theorem queueInv_foldl (es : List Event) : ∀ {q : EventQueue} {L : List Event},
    queueInv q L → queueInv (enqueueList q es) (es.foldl absEnq L) := by
  induction es with
  | nil => intro q L h; exact h
  | cons e es ih =>
    intro q L h
    show queueInv (enqueueList (enqueueEvent q e) es) (es.foldl absEnq (absEnq L e))
    exact ih (queueInv_enqueue h e)

/-- One abstract enqueue step keeps at most 255 pending events. -/
theorem absEnq_length_le {L : List Event} (h : L.length ≤ 255) (e : Event) :
    (absEnq L e).length ≤ 255 := by
  by_cases hfull : L.length = 255
  · simp [absEnq, hfull]
  · simp only [absEnq, if_neg hfull, List.length_append, List.length_singleton]
    omega

/-- One abstract enqueue step is taking the last 255 of the extended list. -/
theorem absEnq_eq_lastN {L : List Event} (h : L.length ≤ 255) (e : Event) :
    absEnq L e = lastN 255 (L ++ [e]) := by
  by_cases hfull : L.length = 255
  · simp only [absEnq, if_pos hfull, lastN, List.length_append, List.length_singleton]
    rw [List.drop_append_eq_append_drop]
    have h1 : L.length + 1 - 255 = 1 := by omega
    rw [h1]
    have h2 : (1 : Nat) - L.length = 0 := by omega
    rw [h2, List.drop_zero]
  · simp only [absEnq, if_neg hfull, lastN, List.length_append, List.length_singleton]
    have h1 : L.length + 1 - 255 = 0 := by omega
    rw [h1, List.drop_zero]

/-- Taking the last n of a list whose prefix was already cut to its last n
gives the same result as cutting the whole list. -/
theorem lastN_append_absorb (n : Nat) (A B : List α) :
    lastN n (lastN n A ++ B) = lastN n (A ++ B) := by
  rcases Nat.le_total A.length n with hle | hge
  · have h0 : A.length - n = 0 := by omega
    simp [lastN, h0]
  · have hXlen : (lastN n A).length = n := by
      simp only [lastN, List.length_drop]
      omega
    have hlt : n ≤ A.length := hge
    simp only [lastN, List.length_append, hXlen, List.length_drop]
    rw [List.drop_append_eq_append_drop, List.drop_append_eq_append_drop,
      List.drop_drop]
    congr 1
    · congr 1
      omega
    · congr 1
      simp only [List.length_drop]
      omega

/-- Folding the abstract enqueue step keeps the most recent 255 events. -/
theorem foldl_absEnq_eq_lastN (es : List Event) : ∀ L : List Event, L.length ≤ 255 →
    es.foldl absEnq L = lastN 255 (L ++ es) := by
  induction es with
  | nil =>
    intro L h
    have h0 : L.length - 255 = 0 := by omega
    simp [lastN, h0]
  | cons e es ih =>
    intro L h
    show es.foldl absEnq (absEnq L e) = _
    rw [ih (absEnq L e) (absEnq_length_le h e), absEnq_eq_lastN h e,
      lastN_append_absorb, List.append_assoc]
    rfl



/-- Updating the slot where a session was found, with a session carrying
the same identifier, leaves it the first match of the lookup scan. -/
theorem findSession_set_same : ∀ (l : List (Option Session)) (id i : Nat)
    (s s2 : Session), findSession l id = some (i, s) → s2.sessionId = s.sessionId →
    findSession (l.set i (some s2)) id = some (i, s2) := by
  intro l
  induction l with
  | nil => intro id i s s2 h _; simp [findSession] at h
  | cons o rest ih =>
    intro id i s s2 h hid
    match o with
    | none =>
      rw [show findSession (none :: rest) id =
          (findSession rest id).map (fun p => (p.1 + 1, p.2)) from rfl] at h
      cases hr : findSession rest id with
      | none => rw [hr] at h; simp at h
      | some p =>
        rw [hr] at h
        simp only [Option.map_some', Option.some.injEq, Prod.mk.injEq] at h
        obtain ⟨h1, h2⟩ := h
        subst h2
        rw [← h1, List.set_cons_succ]
        rw [show findSession (none :: rest.set p.1 (some s2)) id =
            (findSession (rest.set p.1 (some s2)) id).map (fun p => (p.1 + 1, p.2)) from rfl]
        rw [ih id p.1 p.2 s2 hr hid]
        rfl
    | some t =>
      rw [show findSession (some t :: rest) id =
          (if t.sessionId = id then some (0, t)
           else (findSession rest id).map (fun p => (p.1 + 1, p.2))) from rfl] at h
      by_cases htid : t.sessionId = id
      · rw [if_pos htid] at h
        simp only [Option.some.injEq, Prod.mk.injEq] at h
        obtain ⟨h1, h2⟩ := h
        subst h2
        rw [← h1, List.set_cons_zero]
        rw [show findSession (some s2 :: rest) id =
            (if s2.sessionId = id then some (0, s2)
             else (findSession rest id).map (fun p => (p.1 + 1, p.2))) from rfl]
        rw [if_pos (by rw [hid, htid])]
      · rw [if_neg htid] at h
        cases hr : findSession rest id with
        | none => rw [hr] at h; simp at h
        | some p =>
          rw [hr] at h
          simp only [Option.map_some', Option.some.injEq, Prod.mk.injEq] at h
          obtain ⟨h1, h2⟩ := h
          subst h2
          rw [← h1, List.set_cons_succ]
          rw [show findSession (some t :: rest.set p.1 (some s2)) id =
              (if t.sessionId = id then some (0, t)
               else (findSession (rest.set p.1 (some s2)) id).map
                 (fun p => (p.1 + 1, p.2))) from rfl]
          rw [if_neg htid, ih id p.1 p.2 s2 hr hid]
          rfl


/-- A fully occupied slot table has no free slot. -/
theorem findFreeSlot_all_some : ∀ l : List (Option Session),
    (∀ os ∈ l, os ≠ none) → findFreeSlot l = none := by
  intro l
  induction l with
  | nil => intro _; rfl
  | cons o rest ih =>
    intro h
    match o with
    | none => exact absurd rfl (h none (by simp))
    | some t =>
      show (findFreeSlot rest).map (· + 1) = none
      rw [ih (fun os hos => h os (by simp [hos]))]
      rfl

/-- Clearing one slot of a fully occupied table makes it the first free
slot. -/
theorem findFreeSlot_set_none : ∀ (l : List (Option Session)) (i : Nat),
    i < l.length → (∀ os ∈ l, os ≠ none) → findFreeSlot (l.set i none) = some i := by
  intro l
  induction l with
  | nil => intro i hi _; simp at hi
  | cons o rest ih =>
    intro i hi h
    match o with
    | none => exact absurd rfl (h none (by simp))
    | some t =>
      match i with
      | 0 => rw [List.set_cons_zero]; rfl
      | j + 1 =>
        rw [List.set_cons_succ]
        show (findFreeSlot (rest.set j none)).map (· + 1) = some (j + 1)
        rw [ih j (by simpa using hi) (fun os hos => h os (by simp [hos]))]
        rfl

/-- A fully occupied table holds no empty slot at all. -/
theorem countP_isNone_zero : ∀ l : List (Option Session),
    (∀ os ∈ l, os ≠ none) → l.countP (fun os => os.isNone) = 0 := by
  intro l
  induction l with
  | nil => intro _; rfl
  | cons o rest ih =>
    intro h
    match o with
    | none => exact absurd rfl (h none (by simp))
    | some t =>
      simp only [List.countP_cons]
      simp [ih (fun os hos => h os (by simp [hos]))]

/-- Clearing one slot of a fully occupied table frees exactly one slot. -/
theorem countP_isNone_set : ∀ (l : List (Option Session)) (i : Nat),
    i < l.length → (∀ os ∈ l, os ≠ none) →
    (l.set i none).countP (fun os => os.isNone) = 1 := by
  intro l
  induction l with
  | nil => intro i hi _; simp at hi
  | cons o rest ih =>
    intro i hi h
    match o with
    | none => exact absurd rfl (h none (by simp))
    | some t =>
      match i with
      | 0 =>
        rw [List.set_cons_zero]
        simp only [List.countP_cons]
        simp [countP_isNone_zero rest (fun os hos => h os (by simp [hos]))]
      | j + 1 =>
        rw [List.set_cons_succ]
        simp only [List.countP_cons]
        simp [ih j (by simpa using hi) (fun os hos => h os (by simp [hos]))]

/-- A session stored into the first free slot is found there by the lookup
scan when no earlier occupied slot carries its identifier. -/
theorem findSession_set_fresh : ∀ (l : List (Option Session)) (i id : Nat)
    (s : Session), findFreeSlot l = some i →
    (∀ os ∈ l, ∀ t, os = some t → t.sessionId ≠ id) → s.sessionId = id →
    findSession (l.set i (some s)) id = some (i, s) := by
  intro l
  induction l with
  | nil => intro i id s h _ _; simp [findFreeSlot] at h
  | cons o rest ih =>
    intro i id s h hno hsid
    match o with
    | none =>
      have hi : i = 0 := by
        rw [show findFreeSlot (none :: rest) = some 0 from rfl] at h
        have h0 : (0 : Nat) = i := by simpa using h
        omega
      subst hi
      rw [List.set_cons_zero]
      rw [show findSession (some s :: rest) id =
          (if s.sessionId = id then some (0, s)
           else (findSession rest id).map (fun p => (p.1 + 1, p.2))) from rfl]
      rw [if_pos hsid]
    | some t =>
      rw [show findFreeSlot (some t :: rest) = (findFreeSlot rest).map (· + 1) from rfl] at h
      cases hr : findFreeSlot rest with
      | none => rw [hr] at h; simp at h
      | some j =>
        rw [hr] at h
        simp only [Option.map_some', Option.some.injEq] at h
        subst h
        rw [List.set_cons_succ]
        rw [show findSession (some t :: rest.set j (some s)) id =
            (if t.sessionId = id then some (0, t)
             else (findSession (rest.set j (some s)) id).map
               (fun p => (p.1 + 1, p.2))) from rfl]
        rw [if_neg (hno (some t) (by simp) t rfl)]
        rw [ih j id s hr (fun os hos u hu => hno os (by simp [hos]) u hu) hsid]
        rfl


/-- The lookup scan only returns indices inside the table. -/
theorem findSession_lt_length : ∀ (l : List (Option Session)) (id i : Nat) (s : Session),
    findSession l id = some (i, s) → i < l.length := by
  intro l
  induction l with
  | nil => intro id i s h; simp [findSession] at h
  | cons o rest ih =>
    intro id i s h
    match o with
    | none =>
      rw [show findSession (none :: rest) id =
          (findSession rest id).map (fun p => (p.1 + 1, p.2)) from rfl] at h
      cases hr : findSession rest id with
      | none => rw [hr] at h; simp at h
      | some p =>
        rw [hr] at h
        simp only [Option.map_some', Option.some.injEq, Prod.mk.injEq] at h
        have := ih id p.1 p.2 hr
        simp only [List.length_cons]
        omega
    | some t =>
      rw [show findSession (some t :: rest) id =
          (if t.sessionId = id then some (0, t)
           else (findSession rest id).map (fun p => (p.1 + 1, p.2))) from rfl] at h
      by_cases htid : t.sessionId = id
      · rw [if_pos htid] at h
        simp only [Option.some.injEq, Prod.mk.injEq] at h
        simp only [List.length_cons]
        omega
      · rw [if_neg htid] at h
        cases hr : findSession rest id with
        | none => rw [hr] at h; simp at h
        | some p =>
          rw [hr] at h
          simp only [Option.map_some', Option.some.injEq, Prod.mk.injEq] at h
          have := ih id p.1 p.2 hr
          simp only [List.length_cons]
          omega

/-- Worker transition out of Connecting. -/
theorem workerStep_connecting {s : Session} (h : s.state = ClientState.connecting) :
    workerStep s = client_event_handler { s with state := ClientState.auth }
      ClientEventType.stateChange (some "Authenticating") := by
  simp [workerStep, h]

/-- Worker transition out of Authenticating. -/
theorem workerStep_auth {s : Session} (h : s.state = ClientState.auth) :
    workerStep s = client_event_handler { s with state := ClientState.getConfig }
      ClientEventType.stateChange (some "Getting configuration") := by
  simp [workerStep, h]

/-- Worker transition out of FetchingConfig. -/
theorem workerStep_getConfig {s : Session} (h : s.state = ClientState.getConfig) :
    workerStep s = client_event_handler { s with state := ClientState.assignIp }
      ClientEventType.stateChange (some "Assigning IP") := by
  simp [workerStep, h]

/-- Worker transition out of AssigningAddress. -/
theorem workerStep_assignIp {s : Session} (h : s.state = ClientState.assignIp) :
    workerStep s = client_event_handler { s with state := ClientState.addRoutes }
      ClientEventType.stateChange (some "Adding routes") := by
  simp [workerStep, h]

/-- Worker transition out of AddingRoutes, reaching Connected. -/
theorem workerStep_addRoutes {s : Session} (h : s.state = ClientState.addRoutes) :
    workerStep s = client_event_handler
      { s with state := ClientState.connected, isConnected := true }
      ClientEventType.stateChange (some "Connected") := by
  simp [workerStep, h]


/-- Creation step of the connect scenario. -/
theorem c1_create_eq (c : ClientConfig) (t : String) (hc : c.ovpn_config = some t) :
    ovpn_client_create_session initClientRegistry c = (1, c1Rc c) := by
  rw [ovpn_client_create_session.eq_def, hc]
  rfl

/-- Profile validation of the connect scenario. -/
theorem c1_parse_eq (c : ClientConfig) (t : String) (hc : c.ovpn_config = some t)
    (hlen : t.length ≠ 0) (hsub : hasSub t.toList ("client".toList) = true) :
    parse_ovpn_config (c1S0 c) = OVPN_ERROR_SUCCESS := by
  have hcc : (c1S0 c).config.ovpn_config = some t := by
    rw [show (c1S0 c).config = c from rfl, hc]
  rw [parse_ovpn_config.eq_def, hcc]
  show (if t.length = 0 then OVPN_ERROR_CONFIG_INVALID
    else if hasSub t.toList "client".toList = true then OVPN_ERROR_SUCCESS
    else OVPN_ERROR_CONFIG_INVALID) = OVPN_ERROR_SUCCESS
  rw [if_neg hlen, if_pos hsub]

/-- Connect step of the connect scenario. -/
theorem c1_connect_eq (c : ClientConfig) (t : String) (hc : c.ovpn_config = some t)
    (hlen : t.length ≠ 0) (hsub : hasSub t.toList ("client".toList) = true) :
    ovpn_client_connect (c1Rc c) 1 = (OVPN_ERROR_SUCCESS, c1R2 c) := by
  have h1 : ovpn_client_connect (c1Rc c) 1 =
      (if parse_ovpn_config (c1S0 c) ≠ OVPN_ERROR_SUCCESS
       then (parse_ovpn_config (c1S0 c), c1Rc c)
       else (OVPN_ERROR_SUCCESS, updateSlot (c1Rc c) 0
         (client_event_handler
           { c1S0 c with threadRunning := true, workerThread := true,
                         state := ClientState.connecting }
           ClientEventType.stateChange (some "Connection initiated")))) := rfl
  rw [h1, c1_parse_eq c t hc hlen hsub]
  rw [if_neg (fun hne => hne rfl)]
  rfl

/-- Worker loop effect of 1 iteration on the freshly connected
scenario session. -/
theorem c1_worker1 (c : ClientConfig) : workerIterate 1 (c1S1 c) = c1S2 c := by
  rw [show workerIterate 1 (c1S1 c) = workerIterate 0 (workerStep (c1S1 c)) from rfl,
      workerStep_connecting (s := c1S1 c) rfl,
      show client_event_handler { c1S1 c with state := ClientState.auth }
        ClientEventType.stateChange (some "Authenticating") = c1S2 c from rfl]
  rfl

/-- Worker loop effect of 2 iterations on the freshly connected
scenario session. -/
theorem c1_worker2 (c : ClientConfig) : workerIterate 2 (c1S1 c) = c1S3 c := by
  rw [show workerIterate 2 (c1S1 c) = workerIterate 1 (workerStep (c1S1 c)) from rfl,
      workerStep_connecting (s := c1S1 c) rfl,
      show client_event_handler { c1S1 c with state := ClientState.auth }
        ClientEventType.stateChange (some "Authenticating") = c1S2 c from rfl]
  rw [show workerIterate 1 (c1S2 c) = workerIterate 0 (workerStep (c1S2 c)) from rfl,
      workerStep_auth (s := c1S2 c) rfl,
      show client_event_handler { c1S2 c with state := ClientState.getConfig }
        ClientEventType.stateChange (some "Getting configuration") = c1S3 c from rfl]
  rfl

/-- Worker loop effect of 3 iterations on the freshly connected
scenario session. -/
theorem c1_worker3 (c : ClientConfig) : workerIterate 3 (c1S1 c) = c1S4 c := by
  rw [show workerIterate 3 (c1S1 c) = workerIterate 2 (workerStep (c1S1 c)) from rfl,
      workerStep_connecting (s := c1S1 c) rfl,
      show client_event_handler { c1S1 c with state := ClientState.auth }
        ClientEventType.stateChange (some "Authenticating") = c1S2 c from rfl]
  rw [show workerIterate 2 (c1S2 c) = workerIterate 1 (workerStep (c1S2 c)) from rfl,
      workerStep_auth (s := c1S2 c) rfl,
      show client_event_handler { c1S2 c with state := ClientState.getConfig }
        ClientEventType.stateChange (some "Getting configuration") = c1S3 c from rfl]
  rw [show workerIterate 1 (c1S3 c) = workerIterate 0 (workerStep (c1S3 c)) from rfl,
      workerStep_getConfig (s := c1S3 c) rfl,
      show client_event_handler { c1S3 c with state := ClientState.assignIp }
        ClientEventType.stateChange (some "Assigning IP") = c1S4 c from rfl]
  rfl

/-- Worker loop effect of 4 iterations on the freshly connected
scenario session. -/
theorem c1_worker4 (c : ClientConfig) : workerIterate 4 (c1S1 c) = c1S5 c := by
  rw [show workerIterate 4 (c1S1 c) = workerIterate 3 (workerStep (c1S1 c)) from rfl,
      workerStep_connecting (s := c1S1 c) rfl,
      show client_event_handler { c1S1 c with state := ClientState.auth }
        ClientEventType.stateChange (some "Authenticating") = c1S2 c from rfl]
  rw [show workerIterate 3 (c1S2 c) = workerIterate 2 (workerStep (c1S2 c)) from rfl,
      workerStep_auth (s := c1S2 c) rfl,
      show client_event_handler { c1S2 c with state := ClientState.getConfig }
        ClientEventType.stateChange (some "Getting configuration") = c1S3 c from rfl]
  rw [show workerIterate 2 (c1S3 c) = workerIterate 1 (workerStep (c1S3 c)) from rfl,
      workerStep_getConfig (s := c1S3 c) rfl,
      show client_event_handler { c1S3 c with state := ClientState.assignIp }
        ClientEventType.stateChange (some "Assigning IP") = c1S4 c from rfl]
  rw [show workerIterate 1 (c1S4 c) = workerIterate 0 (workerStep (c1S4 c)) from rfl,
      workerStep_assignIp (s := c1S4 c) rfl,
      show client_event_handler { c1S4 c with state := ClientState.addRoutes }
        ClientEventType.stateChange (some "Adding routes") = c1S5 c from rfl]
  rfl

/-- Worker loop effect of 5 iterations on the freshly connected
scenario session. -/
theorem c1_worker5 (c : ClientConfig) : workerIterate 5 (c1S1 c) = c1S6 c := by
  rw [show workerIterate 5 (c1S1 c) = workerIterate 4 (workerStep (c1S1 c)) from rfl,
      workerStep_connecting (s := c1S1 c) rfl,
      show client_event_handler { c1S1 c with state := ClientState.auth }
        ClientEventType.stateChange (some "Authenticating") = c1S2 c from rfl]
  rw [show workerIterate 4 (c1S2 c) = workerIterate 3 (workerStep (c1S2 c)) from rfl,
      workerStep_auth (s := c1S2 c) rfl,
      show client_event_handler { c1S2 c with state := ClientState.getConfig }
        ClientEventType.stateChange (some "Getting configuration") = c1S3 c from rfl]
  rw [show workerIterate 3 (c1S3 c) = workerIterate 2 (workerStep (c1S3 c)) from rfl,
      workerStep_getConfig (s := c1S3 c) rfl,
      show client_event_handler { c1S3 c with state := ClientState.assignIp }
        ClientEventType.stateChange (some "Assigning IP") = c1S4 c from rfl]
  rw [show workerIterate 2 (c1S4 c) = workerIterate 1 (workerStep (c1S4 c)) from rfl,
      workerStep_assignIp (s := c1S4 c) rfl,
      show client_event_handler { c1S4 c with state := ClientState.addRoutes }
        ClientEventType.stateChange (some "Adding routes") = c1S5 c from rfl]
  rw [show workerIterate 1 (c1S5 c) = workerIterate 0 (workerStep (c1S5 c)) from rfl,
      workerStep_addRoutes (s := c1S5 c) rfl,
      show client_event_handler { c1S5 c with state := ClientState.connected, isConnected := true }
        ClientEventType.stateChange (some "Connected") = c1S6 c from rfl]
  rfl



/-- C1: starting a session from Initial via Connect and letting the worker
run drives the state through Connecting, Authenticating, FetchingConfig,
AssigningAddress, AddingRoutes, Connected in that exact order, with exactly
one StateChange event per forward transition, and those events are
observable through GetNextEvent in emission order (after the synchronous
creation event). -/
theorem c1_worker_forward_transitions (c : ClientConfig) (t : String)
    (hc : c.ovpn_config = some t) (hlen : t.length ≠ 0)
    (hsub : hasSub t.toList ("client".toList) = true) :
    (ovpn_client_create_session initClientRegistry c).1 = 1 ∧
    (ovpn_client_connect (ovpn_client_create_session initClientRegistry c).2 1).1 =
      OVPN_ERROR_SUCCESS ∧
    (List.range 6).map (fun k => ovpn_client_get_state (runWorkerAt (ovpn_client_connect (ovpn_client_create_session initClientRegistry c).2 1).2 1 k) 1) =
      [ClientState.connecting, ClientState.auth, ClientState.getConfig,
       ClientState.assignIp, ClientState.addRoutes, ClientState.connected] ∧
    drainEvents (runWorkerAt (ovpn_client_connect (ovpn_client_create_session initClientRegistry c).2 1).2 1 5) 1 8 = c1Events := by
  have hcreate := c1_create_eq c t hc
  have hcr2 : (ovpn_client_create_session initClientRegistry c).2 = c1Rc c := by
    rw [hcreate]
  have hconnect := c1_connect_eq c t hc hlen hsub
  have g0 : ovpn_client_get_state (runWorkerAt (c1R2 c) 1 0) 1 =
      ClientState.connecting := by
    rw [show runWorkerAt (c1R2 c) 1 0 =
        updateSlot (c1R2 c) 0 (workerIterate 0 (c1S1 c)) from rfl, show workerIterate 0 (c1S1 c) = c1S1 c from rfl]
    rfl
  have g1 : ovpn_client_get_state (runWorkerAt (c1R2 c) 1 1) 1 =
      ClientState.auth := by
    rw [show runWorkerAt (c1R2 c) 1 1 =
        updateSlot (c1R2 c) 0 (workerIterate 1 (c1S1 c)) from rfl, c1_worker1 c]
    rfl
  have g2 : ovpn_client_get_state (runWorkerAt (c1R2 c) 1 2) 1 =
      ClientState.getConfig := by
    rw [show runWorkerAt (c1R2 c) 1 2 =
        updateSlot (c1R2 c) 0 (workerIterate 2 (c1S1 c)) from rfl, c1_worker2 c]
    rfl
  have g3 : ovpn_client_get_state (runWorkerAt (c1R2 c) 1 3) 1 =
      ClientState.assignIp := by
    rw [show runWorkerAt (c1R2 c) 1 3 =
        updateSlot (c1R2 c) 0 (workerIterate 3 (c1S1 c)) from rfl, c1_worker3 c]
    rfl
  have g4 : ovpn_client_get_state (runWorkerAt (c1R2 c) 1 4) 1 =
      ClientState.addRoutes := by
    rw [show runWorkerAt (c1R2 c) 1 4 =
        updateSlot (c1R2 c) 0 (workerIterate 4 (c1S1 c)) from rfl, c1_worker4 c]
    rfl
  have g5 : ovpn_client_get_state (runWorkerAt (c1R2 c) 1 5) 1 =
      ClientState.connected := by
    rw [show runWorkerAt (c1R2 c) 1 5 =
        updateSlot (c1R2 c) 0 (workerIterate 5 (c1S1 c)) from rfl, c1_worker5 c]
    rfl
  refine ⟨by rw [hcreate], ?_, ?_, ?_⟩
  · rw [hcr2, hconnect]
  · rw [hcr2, hconnect]
    show (List.range 6).map
      (fun k => ovpn_client_get_state (runWorkerAt (c1R2 c) 1 k) 1) = _
    rw [show List.range 6 = [0, 1, 2, 3, 4, 5] from rfl]
    simp only [List.map_cons, List.map_nil]
    rw [g0, g1, g2, g3, g4, g5]
  · rw [hcr2, hconnect]
    show drainEvents (runWorkerAt (c1R2 c) 1 5) 1 8 = c1Events
    rw [show runWorkerAt (c1R2 c) 1 5 =
        updateSlot (c1R2 c) 0 (workerIterate 5 (c1S1 c)) from rfl, c1_worker5 c]
    rfl

/-- Witness: the C1 scenario run on a concrete valid configuration. -/
theorem c1_worker_forward_transitions_witness :
    witnessClientConfig.ovpn_config = some "client\ndev tun" ∧
    ("client\ndev tun" : String).length ≠ 0 ∧
    hasSub ("client\ndev tun" : String).toList ("client".toList) = true ∧
    ((ovpn_client_create_session initClientRegistry witnessClientConfig).1 = 1 ∧
     (ovpn_client_connect
        (ovpn_client_create_session initClientRegistry witnessClientConfig).2 1).1 =
       OVPN_ERROR_SUCCESS ∧
     (List.range 6).map (fun k => ovpn_client_get_state
        (runWorkerAt (ovpn_client_connect (ovpn_client_create_session
          initClientRegistry witnessClientConfig).2 1).2 1 k) 1) =
       [ClientState.connecting, ClientState.auth, ClientState.getConfig,
        ClientState.assignIp, ClientState.addRoutes, ClientState.connected] ∧
     drainEvents (runWorkerAt (ovpn_client_connect (ovpn_client_create_session
        initClientRegistry witnessClientConfig).2 1).2 1 5) 1 8 = c1Events) :=
  ⟨rfl, by decide, by decide,
   c1_worker_forward_transitions witnessClientConfig "client\ndev tun" rfl
     (by decide) (by decide)⟩


/-- C10: pausing a session is exactly a disconnect and resuming is exactly
a connect, so no paused state is preserved and a successfully resumed
session restarts the state machine from Connecting. -/
theorem c10_pause_resume_equivalence :
    (∀ (r : ClientRegistry) (id : Nat),
      ovpn_client_pause r id = ovpn_client_disconnect r id) ∧
    (∀ (r : ClientRegistry) (id : Nat),
      ovpn_client_resume r id = ovpn_client_connect r id) ∧
    (∀ (r : ClientRegistry) (id : Nat),
      (ovpn_client_resume r id).1 = OVPN_ERROR_SUCCESS →
      ovpn_client_get_state (ovpn_client_resume r id).2 id = ClientState.connecting) := by
  refine ⟨fun r id => rfl, fun r id => rfl, ?_⟩
  intro r id h
  rw [show ovpn_client_resume r id = ovpn_client_connect r id from rfl] at h ⊢
  cases hf : findSession r.slots id with
  | none =>
    rw [ovpn_client_connect.eq_def, hf] at h
    dsimp only at h
    exact absurd h (by decide)
  | some p =>
    obtain ⟨i, s⟩ := p
    rw [ovpn_client_connect.eq_def, hf] at h ⊢
    dsimp only at h ⊢
    by_cases hcon : (s.isConnected || s.threadRunning) = true
    · rw [if_pos hcon] at h
      dsimp only at h
      exact absurd h (by decide)
    · rw [if_neg hcon] at h ⊢
      by_cases hret : parse_ovpn_config s ≠ OVPN_ERROR_SUCCESS
      · rw [if_pos hret] at h
        dsimp only at h
        exact absurd h hret
      · rw [if_neg hret] at h ⊢
        have hfind := findSession_set_same r.slots id i s
          (client_event_handler
            { s with threadRunning := true, workerThread := true,
                     state := ClientState.connecting }
            ClientEventType.stateChange (some "Connection initiated")) hf rfl
        rw [ovpn_client_get_state.eq_def]
        dsimp only [updateSlot]
        rw [hfind]
        rfl

/-- Witness for C10: resuming a freshly created (hence disconnected)
session succeeds and restarts it in Connecting. -/
theorem c10_pause_resume_equivalence_witness :
    (ovpn_client_resume
      (ovpn_client_create_session initClientRegistry witnessClientConfig).2 1).1 =
      OVPN_ERROR_SUCCESS ∧
    ovpn_client_get_state (ovpn_client_resume
      (ovpn_client_create_session initClientRegistry witnessClientConfig).2 1).2 1 =
      ClientState.connecting :=
  ⟨by decide,
   c10_pause_resume_equivalence.2.2
     (ovpn_client_create_session initClientRegistry witnessClientConfig).2 1 (by decide)⟩

/-- C5: a first Disconnect on a connected session succeeds; a second
Disconnect immediately after reports NotConnected, performs no thread join,
and leaves the registry untouched. -/
theorem c5_disconnect_idempotent (r : ClientRegistry) (id : Nat)
    (h : (findSession r.slots id).map
      (fun p => (p.2.isConnected, p.2.threadRunning)) = some (true, true)) :
    (ovpn_client_disconnect r id).1 = OVPN_ERROR_SUCCESS ∧
    (ovpn_client_disconnect (ovpn_client_disconnect r id).2.1 id).1 =
      OVPN_ERROR_NOT_CONNECTED ∧
    (ovpn_client_disconnect (ovpn_client_disconnect r id).2.1 id).2.2 = false ∧
    (ovpn_client_disconnect (ovpn_client_disconnect r id).2.1 id).2.1 =
      (ovpn_client_disconnect r id).2.1 := by
  cases hf : findSession r.slots id with
  | none => rw [hf] at h; simp at h
  | some p =>
    obtain ⟨i, s⟩ := p
    rw [hf] at h
    simp only [Option.map_some', Option.some.injEq, Prod.mk.injEq] at h
    obtain ⟨hconn, hrun⟩ := h
    have hd1 : ovpn_client_disconnect r id =
        (OVPN_ERROR_SUCCESS, updateSlot r i
          (client_event_handler
            { s with threadRunning := false, workerThread := false,
                     state := ClientState.disconnected, isConnected := false }
            ClientEventType.stateChange (some "Disconnected")), s.workerThread) := by
      rw [ovpn_client_disconnect.eq_def, hf]
      dsimp only
      rw [if_neg (by rw [hrun]; simp)]
    have hfind2 := findSession_set_same r.slots id i s
      (client_event_handler
        { s with threadRunning := false, workerThread := false,
                 state := ClientState.disconnected, isConnected := false }
        ClientEventType.stateChange (some "Disconnected")) hf rfl
    have hd2 : ovpn_client_disconnect (ovpn_client_disconnect r id).2.1 id =
        (OVPN_ERROR_NOT_CONNECTED, (ovpn_client_disconnect r id).2.1, false) := by
      rw [hd1]
      dsimp only
      rw [ovpn_client_disconnect.eq_def]
      dsimp only [updateSlot]
      rw [hfind2]
      dsimp only
      rw [if_pos (by rfl)]
    refine ⟨by rw [hd1], by rw [hd2], by rw [hd2], by rw [hd2]⟩

/-- Witness for C5: double disconnect on a concrete session driven to
Connected by the worker. -/
theorem c5_disconnect_idempotent_witness :
    ((findSession (runWorkerAt (ovpn_client_connect (ovpn_client_create_session
        initClientRegistry witnessClientConfig).2 1).2 1 5).slots 1).map
      (fun p => (p.2.isConnected, p.2.threadRunning)) = some (true, true)) ∧
    ((ovpn_client_disconnect (runWorkerAt (ovpn_client_connect
        (ovpn_client_create_session initClientRegistry witnessClientConfig).2 1).2 1 5) 1).1 =
      OVPN_ERROR_SUCCESS ∧
     (ovpn_client_disconnect (ovpn_client_disconnect (runWorkerAt (ovpn_client_connect
        (ovpn_client_create_session initClientRegistry witnessClientConfig).2 1).2 1 5) 1).2.1 1).1 =
      OVPN_ERROR_NOT_CONNECTED ∧
     (ovpn_client_disconnect (ovpn_client_disconnect (runWorkerAt (ovpn_client_connect
        (ovpn_client_create_session initClientRegistry witnessClientConfig).2 1).2 1 5) 1).2.1 1).2.2 = false ∧
     (ovpn_client_disconnect (ovpn_client_disconnect (runWorkerAt (ovpn_client_connect
        (ovpn_client_create_session initClientRegistry witnessClientConfig).2 1).2 1 5) 1).2.1 1).2.1 =
      (ovpn_client_disconnect (runWorkerAt (ovpn_client_connect
        (ovpn_client_create_session initClientRegistry witnessClientConfig).2 1).2 1 5) 1).2.1) :=
  ⟨by decide,
   c5_disconnect_idempotent
     (runWorkerAt (ovpn_client_connect (ovpn_client_create_session
        initClientRegistry witnessClientConfig).2 1).2 1 5) 1 (by decide)⟩


/-- C4: with the mandatory profile text present and a free slot available,
CreateSession hands out the current counter value as a nonzero identifier,
bumps the monotonically increasing uint32 counter, and an immediate
GetState on the new identifier reports Initial. -/
theorem c4_create_session_initial (r : ClientRegistry) (c : ClientConfig)
    (t : String) (i : Nat)
    (hc : c.ovpn_config = some t)
    (hfree : findFreeSlot r.slots = some i)
    (hnz : r.nextId ≠ 0)
    (hfresh : ∀ os ∈ r.slots, os.map Session.sessionId ≠ some r.nextId) :
    (ovpn_client_create_session r c).1 = r.nextId ∧
    (ovpn_client_create_session r c).1 ≠ 0 ∧
    (ovpn_client_create_session r c).2.nextId = (r.nextId + 1) % UINT32_MOD ∧
    ovpn_client_get_state (ovpn_client_create_session r c).2 r.nextId =
      ClientState.initial := by
  have hcreate : ovpn_client_create_session r c =
      (r.nextId, ClientRegistry.mk
        (r.slots.set i (some (client_event_handler
          (Session.mk r.nextId c ClientState.initial false false false emptyEventQueue)
          ClientEventType.stateChange (some "Session created"))))
        ((r.nextId + 1) % UINT32_MOD)) := by
    rw [ovpn_client_create_session.eq_def, hc, hfree]
  have hno : ∀ os ∈ r.slots, ∀ u : Session, os = some u → u.sessionId ≠ r.nextId := by
    intro os hos u hu
    have := hfresh os hos
    rw [hu] at this
    simpa using this
  have hfind := findSession_set_fresh r.slots i r.nextId
    (client_event_handler
      (Session.mk r.nextId c ClientState.initial false false false emptyEventQueue)
      ClientEventType.stateChange (some "Session created")) hfree hno rfl
  refine ⟨by rw [hcreate], by rw [hcreate]; exact hnz, by rw [hcreate], ?_⟩
  rw [hcreate, ovpn_client_get_state.eq_def]
  dsimp only
  rw [hfind]
  rfl

/-- Witness for C4: creation in the freshly initialized registry. -/
theorem c4_create_session_initial_witness :
    witnessClientConfig.ovpn_config = some "client\ndev tun" ∧
    findFreeSlot initClientRegistry.slots = some 0 ∧
    initClientRegistry.nextId ≠ 0 ∧
    (∀ os ∈ initClientRegistry.slots,
      os.map Session.sessionId ≠ some initClientRegistry.nextId) ∧
    ((ovpn_client_create_session initClientRegistry witnessClientConfig).1 =
        initClientRegistry.nextId ∧
     (ovpn_client_create_session initClientRegistry witnessClientConfig).1 ≠ 0 ∧
     (ovpn_client_create_session initClientRegistry witnessClientConfig).2.nextId =
        (initClientRegistry.nextId + 1) % UINT32_MOD ∧
     ovpn_client_get_state
        (ovpn_client_create_session initClientRegistry witnessClientConfig).2
        initClientRegistry.nextId = ClientState.initial) :=
  ⟨rfl, by decide, by decide, by decide,
   c4_create_session_initial initClientRegistry witnessClientConfig
     "client\ndev tun" 0 rfl (by decide) (by decide) (by decide)⟩

/-- C3: with every slot occupied CreateSession fails with the zero
identifier and changes nothing; destroying one registered session then
frees exactly one slot, and one further CreateSession with a valid
configuration succeeds again. -/
theorem c3_capacity_invariant :
    (∀ (r : ClientRegistry) (c : ClientConfig),
      (∀ os ∈ r.slots, os ≠ none) → ovpn_client_create_session r c = (0, r)) ∧
    (∀ (r : ClientRegistry) (id : Nat) (c2 : ClientConfig) (t : String),
      (∀ os ∈ r.slots, os ≠ none) →
      (findSession r.slots id).isSome = true →
      r.nextId ≠ 0 →
      c2.ovpn_config = some t →
      (ovpn_client_destroy_session r id).1 = OVPN_ERROR_SUCCESS ∧
      ((ovpn_client_destroy_session r id).2.slots.countP (fun os => os.isNone)) = 1 ∧
      (ovpn_client_create_session (ovpn_client_destroy_session r id).2 c2).1 =
        r.nextId ∧
      (ovpn_client_create_session (ovpn_client_destroy_session r id).2 c2).1 ≠ 0) := by
  constructor
  · intro r c hfull
    rw [ovpn_client_create_session.eq_def]
    cases hc : c.ovpn_config with
    | none => rfl
    | some t => rw [findFreeSlot_all_some r.slots hfull]
  · intro r id c2 t hfull hsome hnz hc2
    cases hf : findSession r.slots id with
    | none => rw [hf] at hsome; simp at hsome
    | some p =>
      obtain ⟨i, s⟩ := p
      have hilen : i < r.slots.length := findSession_lt_length r.slots id i s hf
      by_cases hrun : (!s.threadRunning && !s.isConnected) = true
      · -- disconnect reports NotConnected and leaves the registry unchanged
        have hdis : ovpn_client_disconnect r id = (OVPN_ERROR_NOT_CONNECTED, r, false) := by
          rw [ovpn_client_disconnect.eq_def, hf]
          dsimp only
          rw [if_pos hrun]
        have hdes : ovpn_client_destroy_session r id =
            (OVPN_ERROR_SUCCESS, { r with slots := r.slots.set i none }) := by
          rw [ovpn_client_destroy_session.eq_def, hdis]
          dsimp only
          rw [hf]
        refine ⟨by rw [hdes], ?_, ?_, ?_⟩
        · rw [hdes]
          exact countP_isNone_set r.slots i hilen hfull
        · rw [hdes, ovpn_client_create_session.eq_def, hc2]
          dsimp only
          rw [findFreeSlot_set_none r.slots i hilen hfull]
        · rw [hdes, ovpn_client_create_session.eq_def, hc2]
          dsimp only
          rw [findFreeSlot_set_none r.slots i hilen hfull]
          exact hnz
      · -- disconnect stops the worker first, then the slot is cleared
        have hdis : ovpn_client_disconnect r id =
            (OVPN_ERROR_SUCCESS, updateSlot r i
              (client_event_handler
                { s with threadRunning := false, workerThread := false,
                         state := ClientState.disconnected, isConnected := false }
                ClientEventType.stateChange (some "Disconnected")), s.workerThread) := by
          rw [ovpn_client_disconnect.eq_def, hf]
          dsimp only
          rw [if_neg hrun]
        have hfind2 := findSession_set_same r.slots id i s
          (client_event_handler
            { s with threadRunning := false, workerThread := false,
                     state := ClientState.disconnected, isConnected := false }
            ClientEventType.stateChange (some "Disconnected")) hf rfl
        have hfull2 : ∀ os ∈ (ovpn_client_disconnect r id).2.1.slots, os ≠ none := by
          rw [hdis]
          dsimp only [updateSlot]
          intro os hos
          rcases List.mem_or_eq_of_mem_set hos with hmem | heq
          · exact hfull os hmem
          · rw [heq]
            simp
        have hlen2 : i < (ovpn_client_disconnect r id).2.1.slots.length := by
          rw [hdis]
          dsimp only [updateSlot]
          simpa using hilen
        have hdes : ovpn_client_destroy_session r id =
            (OVPN_ERROR_SUCCESS,
             { (ovpn_client_disconnect r id).2.1 with
               slots := ((ovpn_client_disconnect r id).2.1.slots.set i none) }) := by
          rw [ovpn_client_destroy_session.eq_def]
          rw [hdis]
          dsimp only [updateSlot]
          rw [hfind2]
        have hnid : (ovpn_client_disconnect r id).2.1.nextId = r.nextId := by
          rw [hdis]
          rfl
        refine ⟨by rw [hdes], ?_, ?_, ?_⟩
        · rw [hdes]
          exact countP_isNone_set _ i hlen2 hfull2
        · rw [hdes, ovpn_client_create_session.eq_def, hc2]
          dsimp only
          rw [findFreeSlot_set_none _ i hlen2 hfull2]
          dsimp only
          exact hnid
        · rw [hdes, ovpn_client_create_session.eq_def, hc2]
          dsimp only
          rw [findFreeSlot_set_none _ i hlen2 hfull2]
          dsimp only
          rw [hnid]
          exact hnz


/-- Witness for C3: a registry filled to all 64 slots rejects creation, and
destroying session 1 frees exactly one slot for one further creation. -/
theorem c3_capacity_invariant_witness :
    (∀ os ∈ ((List.range 64).foldl (fun r _ => (ovpn_client_create_session r witnessClientConfig).2) initClientRegistry).slots, os ≠ none) ∧
    (findSession ((List.range 64).foldl (fun r _ => (ovpn_client_create_session r witnessClientConfig).2) initClientRegistry).slots 1).isSome = true ∧
    ((List.range 64).foldl (fun r _ => (ovpn_client_create_session r witnessClientConfig).2) initClientRegistry).nextId ≠ 0 ∧
    witnessClientConfig.ovpn_config = some "client\ndev tun" ∧
    ovpn_client_create_session ((List.range 64).foldl (fun r _ => (ovpn_client_create_session r witnessClientConfig).2) initClientRegistry) witnessClientConfig = (0, ((List.range 64).foldl (fun r _ => (ovpn_client_create_session r witnessClientConfig).2) initClientRegistry)) ∧
    ((ovpn_client_destroy_session ((List.range 64).foldl (fun r _ => (ovpn_client_create_session r witnessClientConfig).2) initClientRegistry) 1).1 = OVPN_ERROR_SUCCESS ∧
     ((ovpn_client_destroy_session ((List.range 64).foldl (fun r _ => (ovpn_client_create_session r witnessClientConfig).2) initClientRegistry) 1).2.slots.countP (fun os => os.isNone)) = 1 ∧
     (ovpn_client_create_session (ovpn_client_destroy_session ((List.range 64).foldl (fun r _ => (ovpn_client_create_session r witnessClientConfig).2) initClientRegistry) 1).2
        witnessClientConfig).1 = ((List.range 64).foldl (fun r _ => (ovpn_client_create_session r witnessClientConfig).2) initClientRegistry).nextId ∧
     (ovpn_client_create_session (ovpn_client_destroy_session ((List.range 64).foldl (fun r _ => (ovpn_client_create_session r witnessClientConfig).2) initClientRegistry) 1).2
        witnessClientConfig).1 ≠ 0) :=
  ⟨by decide, by decide, by decide, rfl,
   c3_capacity_invariant.1 ((List.range 64).foldl (fun r _ => (ovpn_client_create_session r witnessClientConfig).2) initClientRegistry) witnessClientConfig (by decide),
   c3_capacity_invariant.2 ((List.range 64).foldl (fun r _ => (ovpn_client_create_session r witnessClientConfig).2) initClientRegistry) 1 witnessClientConfig "client\ndev tun"
     (by decide) (by decide) (by decide) rfl⟩

/-- C2 (amended): enqueuing more events than the channel storage size
(256) retains exactly 255 = capacity - 1 events, always the most recent
ones, the oldest being silently dropped by advancing head; GetNextEvent
dequeues through the same dequeue step, returning the retained events
oldest first.  (The ring buffer keeps one cell unused: head = tail means
empty, so at most 255 events are ever pending.) -/
theorem c2_overflow_retains_most_recent :
    (∀ es : List Event, MAX_EVENT_QUEUE_SIZE < es.length →
      pendingCount (enqueueList emptyEventQueue es) = MAX_EVENT_QUEUE_SIZE - 1 ∧
      drainN (MAX_EVENT_QUEUE_SIZE - 1) (enqueueList emptyEventQueue es) =
        es.drop (es.length - (MAX_EVENT_QUEUE_SIZE - 1))) ∧
    (∀ (s : Session) (ty : ClientEventType) (m : Option String),
      (client_event_handler s ty m).queue = enqueueEvent s.queue
        { sessionId := s.sessionId, etype := ty, state := s.state, message := m }) ∧
    (∀ (r : ClientRegistry) (id i : Nat) (s : Session),
      findSession r.slots id = some (i, s) →
      (ovpn_client_get_next_event r id).1 = (dequeueEvent s.queue).1) := by
  refine ⟨?_, fun s ty m => rfl, ?_⟩
  · intro es hlen
    have hinv := queueInv_foldl es queueInv_empty
    have habs : es.foldl absEnq [] = lastN 255 es := by
      have h0 := foldl_absEnq_eq_lastN es [] (by simp)
      simpa using h0
    rw [habs] at hinv
    have hmax : MAX_EVENT_QUEUE_SIZE = 256 := rfl
    have hlast : (lastN 255 es).length = 255 := by
      simp only [lastN, List.length_drop]
      rw [hmax] at hlen
      omega
    have hlast2 : lastN 255 es = es.drop (es.length - (MAX_EVENT_QUEUE_SIZE - 1)) := rfl
    constructor
    · rw [hmax]
      show pendingCount (enqueueList emptyEventQueue es) = 255
      rw [← hlast]
      exact hinv.2.2.2.1
    · rw [← hlast2]
      show drainN (MAX_EVENT_QUEUE_SIZE - 1) (enqueueList emptyEventQueue es) = lastN 255 es
      have hgoal := drainN_inv hinv
      rw [hlast] at hgoal
      exact hgoal
  · intro r id i s hf
    rw [ovpn_client_get_next_event.eq_def, hf]

/-- Counterexample for C2: 257 events enqueued into one channel leave 255
pending events, not 256 as the claim states. -/
theorem c2_counterexample_capacity :
    testEvents257.length = 257 ∧
    MAX_EVENT_QUEUE_SIZE < testEvents257.length ∧
    pendingCount (enqueueList emptyEventQueue testEvents257) = 255 ∧
    pendingCount (enqueueList emptyEventQueue testEvents257) ≠ 256 := by
  refine ⟨by decide, by decide, by decide, by decide⟩

/-- Witness for C2: the amended overflow law evaluated on the concrete
257-event trace. -/
theorem c2_overflow_retains_most_recent_witness :
    MAX_EVENT_QUEUE_SIZE < testEvents257.length ∧
    (pendingCount (enqueueList emptyEventQueue testEvents257) =
      MAX_EVENT_QUEUE_SIZE - 1 ∧
     drainN (MAX_EVENT_QUEUE_SIZE - 1) (enqueueList emptyEventQueue testEvents257) =
      testEvents257.drop (testEvents257.length - (MAX_EVENT_QUEUE_SIZE - 1))) :=
  ⟨by decide, c2_overflow_retains_most_recent.1 testEvents257 (by decide)⟩


/-- Creating a server client whose common name is already carried by a
non-revoked record changes nothing and returns the zero identifier. -/
theorem createClient_duplicate_unchanged (ctx : ServerContext) (cn : String)
    (e d : Option String)
    (h : ∃ cl ∈ ctx.clients, cl.common_name = cn ∧ cl.is_revoked = false) :
    ovpn_server_create_client ctx (some cn) e d = (0, ctx) := by
  rw [ovpn_server_create_client.eq_def]
  dsimp only
  by_cases hfull : ctx.clients.length ≥ MAX_SERVER_CLIENTS
  · rw [if_pos hfull]
  · rw [if_neg hfull]
    have hany : ctx.clients.any (fun cl => cl.common_name = cn && !cl.is_revoked) = true := by
      rw [List.any_eq_true]
      obtain ⟨cl, hmem, h1, h2⟩ := h
      exact ⟨cl, hmem, by rw [h1, h2]; simp⟩
    rw [if_pos hany]

/-- C6: no registry operation partially mutates state on failure; every
failing CreateSession (missing mandatory profile, no free slot) and every
failing CreateClient (NULL common name, duplicate active common name, full
table) returns the zero identifier with session table, client table and
both identifier counters untouched. -/
theorem c6_no_partial_mutation_on_failure :
    (∀ (r : ClientRegistry) (c : ClientConfig), c.ovpn_config = none →
      ovpn_client_create_session r c = (0, r)) ∧
    (∀ (r : ClientRegistry) (c : ClientConfig), findFreeSlot r.slots = none →
      ovpn_client_create_session r c = (0, r)) ∧
    (∀ (ctx : ServerContext) (e d : Option String),
      ovpn_server_create_client ctx none e d = (0, ctx)) ∧
    (∀ (ctx : ServerContext) (cn : String) (e d : Option String),
      (∃ cl ∈ ctx.clients, cl.common_name = cn ∧ cl.is_revoked = false) →
      ovpn_server_create_client ctx (some cn) e d = (0, ctx)) ∧
    (∀ (ctx : ServerContext) (cn : String) (e d : Option String),
      MAX_SERVER_CLIENTS ≤ ctx.clients.length →
      ovpn_server_create_client ctx (some cn) e d = (0, ctx)) := by
  refine ⟨?_, ?_, ?_,
    fun ctx cn e d h => createClient_duplicate_unchanged ctx cn e d h, ?_⟩
  · intro r c hc
    rw [ovpn_client_create_session.eq_def, hc]
  · intro r c hfree
    rw [ovpn_client_create_session.eq_def]
    cases hc : c.ovpn_config with
    | none => rfl
    | some t => rw [hfree]
  · intro ctx e d
    rfl
  · intro ctx cn e d hfull
    rw [ovpn_server_create_client.eq_def]
    dsimp only
    rw [if_pos (by omega : ctx.clients.length ≥ MAX_SERVER_CLIENTS)]

/-- Witness for C6: the failing creation paths evaluated concretely. -/
theorem c6_no_partial_mutation_on_failure_witness :
    zeroClientConfig.ovpn_config = none ∧
    ovpn_client_create_session initClientRegistry zeroClientConfig =
      (0, initClientRegistry) ∧
    (∃ cl ∈ (ovpn_server_create_client ovpn_server_init (some "alice")
        none none).2.clients, cl.common_name = "alice" ∧ cl.is_revoked = false) ∧
    ovpn_server_create_client (ovpn_server_create_client ovpn_server_init
      (some "alice") none none).2 (some "alice") none none =
      (0, (ovpn_server_create_client ovpn_server_init (some "alice") none none).2) ∧
    MAX_SERVER_CLIENTS ≤ fullServerCtx.clients.length ∧
    ovpn_server_create_client fullServerCtx (some "fresh") none none =
      (0, fullServerCtx) :=
  ⟨rfl,
   c6_no_partial_mutation_on_failure.1 initClientRegistry zeroClientConfig rfl,
   by decide,
   c6_no_partial_mutation_on_failure.2.2.2.1
     (ovpn_server_create_client ovpn_server_init (some "alice") none none).2
     "alice" none none (by decide),
   by decide,
   c6_no_partial_mutation_on_failure.2.2.2.2 fullServerCtx "fresh" none none
     (by decide)⟩

/-- C7: creating a record under a common name held by an existing
non-revoked record fails with the zero identifier and no table change;
after revoking the holder, a record with the same common name can be
created again. -/
theorem c7_duplicate_common_name :
    (∀ (ctx : ServerContext) (cn : String) (e d : Option String),
      (∃ cl ∈ ctx.clients, cl.common_name = cn ∧ cl.is_revoked = false) →
      ovpn_server_create_client ctx (some cn) e d = (0, ctx)) ∧
    (ovpn_server_create_client ovpn_server_init (some "alice") none none).1 = 1 ∧
    (ovpn_server_create_client (ovpn_server_create_client ovpn_server_init
      (some "alice") none none).2 (some "alice") none none).1 = 0 ∧
    (ovpn_server_revoke_client (ovpn_server_create_client ovpn_server_init
      (some "alice") none none).2 1 (some "compromised")).1 = 0 ∧
    (ovpn_server_create_client (ovpn_server_revoke_client
      (ovpn_server_create_client ovpn_server_init (some "alice") none none).2
      1 (some "compromised")).2 (some "alice") none none).1 ≠ 0 := by
  refine ⟨fun ctx cn e d h => createClient_duplicate_unchanged ctx cn e d h,
    ?_, ?_, ?_, ?_⟩
  · decide
  · decide
  · decide
  · decide

/-- Witness for C7: the duplicate-rejection law evaluated on the registry
holding the active "alice" record. -/
theorem c7_duplicate_common_name_witness :
    (∃ cl ∈ (ovpn_server_create_client ovpn_server_init (some "alice")
        none none).2.clients, cl.common_name = "alice" ∧ cl.is_revoked = false) ∧
    ovpn_server_create_client (ovpn_server_create_client ovpn_server_init
      (some "alice") none none).2 (some "alice") none none =
      (0, (ovpn_server_create_client ovpn_server_init (some "alice") none none).2) :=
  ⟨by decide,
   c7_duplicate_common_name.1
     (ovpn_server_create_client ovpn_server_init (some "alice") none none).2
     "alice" none none (by decide)⟩

/-- C8 (amended): with the default subnet 10.8.0.0/24 the first three
created clients receive 10.8.0.10, 10.8.0.11 and 10.8.0.12 in creation
order by first-fit ascending scan from host offset 10; when the host range
is exhausted the allocator returns 0 and the client is still created
successfully, merely without a static address (creation does not fail). -/
theorem c8_static_ip_allocation :
    ((ovpn_server_create_client ((ovpn_server_create_client
        ((ovpn_server_create_client ovpn_server_init (some "alpha") none none).2)
        (some "beta") none none).2) (some "gamma") none none).2.clients.map
      (fun cl => (cl.has_static_ip, bswap32 cl.static_ip)) =
      [(true, ipBase + 10), (true, ipBase + 11), (true, ipBase + 12)]) ∧
    allocate_static_ip exhaustedServerCtx = 0 ∧
    (ovpn_server_create_client exhaustedServerCtx (some "alice") none none).1 = 300 ∧
    ((ovpn_server_create_client exhaustedServerCtx (some "alice") none none).2.clients.getLast?).map
      (fun cl => cl.has_static_ip) = some false := by
  refine ⟨by decide, by decide, by decide, by decide⟩

/-- Counterexample for C8: on the exhausted 10.8.0.0/24 subnet, creating a
client does not fail; it returns a nonzero identifier even though the
allocator found no address. -/
theorem c8_counterexample_exhaustion :
    allocate_static_ip exhaustedServerCtx = 0 ∧
    (ovpn_server_create_client exhaustedServerCtx (some "alice") none none).1 ≠ 0 := by
  refine ⟨by decide, by decide⟩


end UrOpenvpn
